import Mathlib

/-!
Verification of the CRM backend (customers, products, orders; GraphQL
mutations in `crm/schema.py`, models in `crm/models.py`, scheduled jobs in
`crm/cron.py`).

The entity store is modelled as explicit record lists threaded through each
mutation.  Django/graphene specifics embedded here:

* `Decimal` prices and totals are exact; they are modelled as `Int`
  (exactness of sums is all that matters to the properties below).
* `DateTimeField` values are abstract instants, modelled as `Nat`; the
  current clock value is passed to each operation that reads it.
* A field declared `auto_now_add=True` (such as `Order.order_date` in
  `crm/models.py`) is always set to the creation instant by the ORM,
  ignoring any value passed to `objects.create`.
* Store writes can raise.  Each mutation takes a `StoreFault` oracle saying
  which write operations raise; a raise is an `Except.error`, and a Python
  `try/except` is the corresponding `match`/recover.  `transaction.atomic`
  rolls the store back to its entry state when the block raises, and its
  commit (at block exit) is itself a write that can raise.
-/

namespace CRM

/-- A raised store/ORM exception, carrying `str(e)`. -/
inductive Exn where
  | storeError (msg : String)
deriving Repr, DecidableEq

/-- The text `str(e)` of an exception. -/
def Exn.text : Exn → String
  | .storeError m => m

/-- `Customer` row (`crm/models.py`): name, email, optional phone. -/
structure Customer where
  id : Nat
  name : String
  email : String
  phone : Option String
deriving Repr, DecidableEq

/-- `Product` row (`crm/models.py`): name, decimal price, integer stock. -/
structure Product where
  id : Nat
  name : String
  price : Int
  stock : Int
deriving Repr, DecidableEq

/-- `Order` row (`crm/models.py`): owning customer, associated product ids
(the many-to-many table), derived total, and `order_date`
(declared `auto_now_add=True`). -/
structure Order where
  id : Nat
  customerId : Nat
  productIds : List Nat
  total_amount : Int
  order_date : Nat
deriving Repr, DecidableEq

/-- The entity store: the three tables plus the next auto-assigned
primary key for each. -/
structure Store where
  customers : List Customer
  products : List Product
  orders : List Order
  nextCustomerId : Nat
  nextProductId : Nat
  nextOrderId : Nat
deriving Repr, DecidableEq

/-- Fault oracle: which store write operations raise, and with what
`str(e)`.  `createCustomerFails n` governs the `n`-th `Customer.objects.create`
call of one mutation invocation (`bulkCreateCustomers` issues one per entry). -/
structure StoreFault where
  createCustomerFails : Nat → Option String
  createProductFails : Option String
  orderWriteFails : Option String
  commitFails : Option String
  lowStockUpdateFails : Option String

/-- The oracle under which no store write raises. -/
def noFault : StoreFault :=
  { createCustomerFails := fun _ => none
    createProductFails := none
    orderWriteFails := none
    commitFails := none
    lowStockUpdateFails := none }

/-- `Customer.objects.filter(email=...).exists()`. -/
def emailExists (s : Store) (email : String) : Bool :=
  s.customers.any (fun c => c.email = email)

/-- `Customer.objects.get(pk=id)`, as an optional lookup. -/
def findCustomer (s : Store) (id : Nat) : Option Customer :=
  s.customers.find? (fun c => c.id = id)

/-- `Product.objects.get(pk=id)`, as an optional lookup. -/
def findProduct (s : Store) (id : Nat) : Option Product :=
  s.products.find? (fun p => p.id = id)

/-! ### The phone pattern of `CreateCustomer.validate_phone`

`r'^\+?\d{1,3}[-.\s]?\(?\d{1,4}\)?[-.\s]?\d{1,4}[-.\s]?\d{1,9}$'`, matched
with Python `re.match`.  The pattern is star-free: it is a fixed sequence of
single-character classes, each required or optional (a counted repetition
`{1,k}` is one required atom followed by `k-1` optional ones).  Matching is
full backtracking over the optional atoms, which coincides with language
membership.  Python's `$` also matches just before one final newline. -/

/-- One single-character regex atom: its character class and whether the
whole atom is optional. -/
structure Atom where
  accepts : Char → Bool
  opt : Bool

/-- Backtracking match of a sequence of atoms against an entire string. -/
def matchAtoms : List Atom → List Char → Bool
  | [], s => s.isEmpty
  | a :: rest, s =>
    (match s with
     | c :: s1 => a.accepts c && matchAtoms rest s1
     | [] => false)
    || (a.opt && matchAtoms rest s)

/-- The class `\d` (a decimal digit). -/
def digitC (c : Char) : Bool := c.isDigit

/-- The class `[-.\s]` (dash, dot, or whitespace). -/
def sepC (c : Char) : Bool :=
  c = '-' || c = '.' || c = ' ' || c = '\t' || c = '\n' || c = '\r' ||
  c = '\x0b' || c = '\x0c'

/-- A required atom. -/
def req (p : Char → Bool) : Atom := ⟨p, false⟩

/-- An optional atom (`?`, or the tail of a `{1,k}` repetition). -/
def optA (p : Char → Bool) : Atom := ⟨p, true⟩

/-- `{1,k}` of a class: one required atom and `k-1` optional ones. -/
def rep1 (p : Char → Bool) (k : Nat) : List Atom :=
  req p :: List.replicate (k - 1) (optA p)

/-- The atoms of the accepted phone pattern, in order:
`\+? \d{1,3} [-.\s]? \(? \d{1,4} \)? [-.\s]? \d{1,4} [-.\s]? \d{1,9}`. -/
def phoneAtoms : List Atom :=
  [optA (fun c => c = '+')] ++ rep1 digitC 3 ++ [optA sepC] ++
  [optA (fun c => c = '(')] ++ rep1 digitC 4 ++ [optA (fun c => c = ')')] ++
  [optA sepC] ++ rep1 digitC 4 ++ [optA sepC] ++ rep1 digitC 9

/-- `bool(re.match(pattern, phone))`: the anchored pattern matches the whole
string, or all of it but one final newline (Python `$`). -/
def phoneMatches (phone : String) : Bool :=
  matchAtoms phoneAtoms phone.data ||
  (phone.data.getLast? = some '\n' && matchAtoms phoneAtoms phone.data.dropLast)

/-- `CreateCustomer.validate_phone` (`crm/schema.py`): empty/absent phone is
valid; otherwise the pattern decides. -/
def validate_phone (phone : String) : Bool :=
  if phone.isEmpty then true else phoneMatches phone

/-- Python truthiness of the optional `phone` field: `None` and `""` are
falsy. -/
def phoneTruthy : Option String → Bool
  | none => false
  | some p => !p.isEmpty

/-- The string content of an optional phone (for the branches guarded by
its truthiness). -/
def phoneVal : Option String → String
  | none => ""
  | some p => p

/-! ### createCustomer -/

/-- `CustomerInput` (`crm/schema.py`). -/
structure CustomerInput where
  name : String
  email : String
  phone : Option String
deriving Repr, DecidableEq

/-- Result shape of `CreateCustomer`: customer, message, success. -/
structure CreateCustomerResult where
  customer : Option Customer
  message : String
  success : Bool
deriving Repr, DecidableEq

/-- The `try` body of `CreateCustomer.mutate`: duplicate-email check, phone
validation, then `Customer.objects.create` (which may raise). -/
def CreateCustomer.body (s : Store) (input : CustomerInput) (f : StoreFault) :
    Except Exn (CreateCustomerResult × Store) :=
  if emailExists s input.email then
    .ok ({ customer := none, message := "Email already exists", success := false }, s)
  else if phoneTruthy input.phone && !validate_phone (phoneVal input.phone) then
    .ok ({ customer := none
           message := "Invalid phone format. Use formats like +1234567890 or 123-456-7890"
           success := false }, s)
  else
    match f.createCustomerFails 0 with
    | some m => .error (.storeError m)
    | none =>
      let c : Customer :=
        { id := s.nextCustomerId
          name := input.name
          email := input.email
          phone := if phoneTruthy input.phone then input.phone else none }
      .ok ({ customer := some c, message := "Customer created successfully", success := true },
           { s with customers := s.customers ++ [c], nextCustomerId := s.nextCustomerId + 1 })

/-- `CreateCustomer.mutate` (`crm/schema.py`): the body wrapped in
`try/except Exception`, every raise recovered into a failure result. -/
def CreateCustomer.mutate (s : Store) (input : CustomerInput) (f : StoreFault) :
    Except Exn (CreateCustomerResult × Store) :=
  match CreateCustomer.body s input f with
  | .ok r => .ok r
  | .error e =>
    .ok ({ customer := none, message := "Error creating customer: " ++ e.text, success := false }, s)

/-! ### bulkCreateCustomers -/

/-- Result shape of `BulkCreateCustomers`: created customers, error list
(`None` when empty, per `errors if errors else None`), success. -/
structure BulkCreateCustomersResult where
  customers : List Customer
  errors : Option (List String)
  success : Bool
deriving Repr, DecidableEq

/-- The entry loop of `BulkCreateCustomers.mutate`: each entry is checked
against the store as seen inside the transaction (earlier same-batch creates
included); a failing entry appends one indexed error and is skipped; a raise
from `Customer.objects.create` is caught by the per-entry `try/except`. -/
def BulkCreateCustomers.loop (f : StoreFault) :
    List CustomerInput → Nat → Store → List Customer → List String →
    Store × List Customer × List String
  | [], _, s, created, errs => (s, created, errs)
  | d :: rest, idx, s, created, errs =>
    if emailExists s d.email then
      BulkCreateCustomers.loop f rest (idx + 1) s created
        (errs ++ ["Customer " ++ toString (idx + 1) ++ ": Email '" ++ d.email ++ "' already exists"])
    else if phoneTruthy d.phone && !validate_phone (phoneVal d.phone) then
      BulkCreateCustomers.loop f rest (idx + 1) s created
        (errs ++ ["Customer " ++ toString (idx + 1) ++ ": Invalid phone format for '" ++
          phoneVal d.phone ++ "'"])
    else
      match f.createCustomerFails idx with
      | some m =>
        BulkCreateCustomers.loop f rest (idx + 1) s created
          (errs ++ ["Customer " ++ toString (idx + 1) ++ ": " ++ m])
      | none =>
        let c : Customer :=
          { id := s.nextCustomerId
            name := d.name
            email := d.email
            phone := if phoneTruthy d.phone then d.phone else none }
        BulkCreateCustomers.loop f rest (idx + 1)
          { s with customers := s.customers ++ [c], nextCustomerId := s.nextCustomerId + 1 }
          (created ++ [c]) errs

/-- `BulkCreateCustomers.mutate` (`crm/schema.py`): the loop runs inside
`with transaction.atomic():` and the method has no outer `try/except`, so a
raise at the commit (the exit of the atomic block) propagates to the caller,
with the store rolled back.  Otherwise the result reports the created subset,
the error list (`None` when empty) and `success = len(created) > 0`. -/
def BulkCreateCustomers.mutate (s : Store) (input : List CustomerInput) (f : StoreFault) :
    Except Exn (BulkCreateCustomersResult × Store) :=
  let r := BulkCreateCustomers.loop f input 0 s [] []
  match f.commitFails with
  | some m => .error (.storeError m)
  | none =>
    .ok ({ customers := r.2.1
           errors := if r.2.2.isEmpty then none else some r.2.2
           success := decide (r.2.1.length > 0) }, r.1)

/-! ### createProduct -/

/-- `ProductInput` (`crm/schema.py`); the schema layer fills `stock = 0`
when absent. -/
structure ProductInput where
  name : String
  price : Int
  stock : Int
deriving Repr, DecidableEq

/-- Result shape of `CreateProduct`: product, message, success. -/
structure CreateProductResult where
  product : Option Product
  message : String
  success : Bool
deriving Repr, DecidableEq

/-- The `try` body of `CreateProduct.mutate`: price/stock validation, then
`Product.objects.create` (which may raise). -/
def CreateProduct.body (s : Store) (input : ProductInput) (f : StoreFault) :
    Except Exn (CreateProductResult × Store) :=
  if input.price ≤ 0 then
    .ok ({ product := none, message := "Price must be positive", success := false }, s)
  else if input.stock < 0 then
    .ok ({ product := none, message := "Stock cannot be negative", success := false }, s)
  else
    match f.createProductFails with
    | some m => .error (.storeError m)
    | none =>
      let p : Product :=
        { id := s.nextProductId, name := input.name, price := input.price, stock := input.stock }
      .ok ({ product := some p, message := "Product created successfully", success := true },
           { s with products := s.products ++ [p], nextProductId := s.nextProductId + 1 })

/-- `CreateProduct.mutate` (`crm/schema.py`): the body wrapped in
`try/except Exception`. -/
def CreateProduct.mutate (s : Store) (input : ProductInput) (f : StoreFault) :
    Except Exn (CreateProductResult × Store) :=
  match CreateProduct.body s input f with
  | .ok r => .ok r
  | .error e =>
    .ok ({ product := none, message := "Error creating product: " ++ e.text, success := false }, s)

/-! ### createOrder -/

/-- `OrderInput` (`crm/schema.py`). -/
structure OrderInput where
  customer_id : Nat
  product_ids : List Nat
  order_date : Option Nat
deriving Repr, DecidableEq

/-- Result shape of `CreateOrder`: order, message, success. -/
structure CreateOrderResult where
  order : Option Order
  message : String
  success : Bool
deriving Repr, DecidableEq

/-- The product-resolution loop of `CreateOrder.mutate`: each id is looked
up in turn and the mutation returns at the first id that does not resolve
(`Product.DoesNotExist`). -/
def resolveProducts (s : Store) : List Nat → Except Nat (List Product)
  | [] => .ok []
  | pid :: rest =>
    match findProduct s pid with
    | none => .error pid
    | some p =>
      match resolveProducts s rest with
      | .error b => .error b
      | .ok ps => .ok (p :: ps)

/-- `order.products.set(products)` associates each distinct product once:
the many-to-many table keys on the product id, so later occurrences of an
already-seen id are dropped. -/
def dedupById (ps : List Product) : List Product :=
  go ps []
where
  /-- Keep the first occurrence of each product id. -/
  go : List Product → List Nat → List Product
  | [], _ => []
  | p :: rest, seen =>
    if p.id ∈ seen then go rest seen else p :: go rest (p.id :: seen)

/-- The `try` body of `CreateOrder.mutate`: customer lookup, empty-list
check, product resolution (all before any write), then the atomic block:
create the order row, associate the products, store `calculate_total`
(the sum of the associated products' prices), save.  `Order.order_date` is
declared `auto_now_add=True` in `crm/models.py`, so the ORM stamps the
creation instant `now` and ignores the `order_date` value the mutation
passes to `Order.objects.create`. -/
def CreateOrder.body (s : Store) (input : OrderInput) (now : Nat) (f : StoreFault) :
    Except Exn (CreateOrderResult × Store) :=
  match findCustomer s input.customer_id with
  | none =>
    .ok ({ order := none
           message := "Customer with ID " ++ toString input.customer_id ++ " does not exist"
           success := false }, s)
  | some customer =>
    if input.product_ids.isEmpty then
      .ok ({ order := none, message := "At least one product must be provided", success := false }, s)
    else
      match resolveProducts s input.product_ids with
      | .error pid =>
        .ok ({ order := none
               message := "Product with ID " ++ toString pid ++ " does not exist"
               success := false }, s)
      | .ok products =>
        match f.orderWriteFails with
        | some m => .error (.storeError m)
        | none =>
          match f.commitFails with
          | some m => .error (.storeError m)
          | none =>
            let assoc := dedupById products
            let total := (assoc.map (fun p => p.price)).sum
            let o : Order :=
              { id := s.nextOrderId
                customerId := customer.id
                productIds := assoc.map (fun p => p.id)
                total_amount := total
                order_date := now }
            .ok ({ order := some o
                   message := "Order created successfully with total amount $" ++ toString total
                   success := true },
                 { s with orders := s.orders ++ [o], nextOrderId := s.nextOrderId + 1 })

/-- `CreateOrder.mutate` (`crm/schema.py`): the body wrapped in
`try/except Exception`; a raise inside the atomic block rolls the store
back and is converted to a failure result. -/
def CreateOrder.mutate (s : Store) (input : OrderInput) (now : Nat) (f : StoreFault) :
    Except Exn (CreateOrderResult × Store) :=
  match CreateOrder.body s input now f with
  | .ok r => .ok r
  | .error e =>
    .ok ({ order := none, message := "Error creating order: " ++ e.text, success := false }, s)

/-! ### updateLowStockProducts -/

/-- Result shape of `UpdateLowStockProducts`: updated products, message,
success (the fields selected by `crm/cron.py`). -/
structure UpdateLowStockProductsResult where
  products : List Product
  message : String
  success : Bool
deriving Repr, DecidableEq

/-- Modelled from the spec: the `UpdateLowStockProducts` mutation itself is
not defined under `src/` — `crm/schema.py`'s `Mutation` class registers only
the four create mutations, and `crm/cron.py` only invokes
`updateLowStockProducts` by name over the API.  Spec §4.3: "finds all
products with stock < 10, increments each by exactly 10, persists each
update.  Always reports `success=true` (even if zero products matched);
only a hard store failure yields `success=false`.  Returns the full list of
updated products (empty list if none matched)." -/
def UpdateLowStockProducts.mutate (s : Store) (f : StoreFault) :
    UpdateLowStockProductsResult × Store :=
  match f.lowStockUpdateFails with
  | some m =>
    ({ products := [], message := "Error updating low-stock products: " ++ m, success := false }, s)
  | none =>
    let updated :=
      (s.products.filter (fun p => p.stock < 10)).map (fun p => { p with stock := p.stock + 10 })
    ({ products := updated
       message := "Successfully restocked " ++ toString updated.length ++ " products"
       success := true },
     { s with products :=
        s.products.map (fun p => if p.stock < 10 then { p with stock := p.stock + 10 } else p) })

/-- A direct ORM price update (`product.price = x; product.save()`): a store
write that touches exactly the matching product row. -/
def updateProductPrice (s : Store) (pid : Nat) (newPrice : Int) : Store :=
  { s with products :=
      s.products.map (fun p => if p.id = pid then { p with price := newPrice } else p) }

/-! ### The heartbeat job (`crm/cron.py`, `log_crm_heartbeat`) -/

/-- The components of `datetime.now()` used by
`strftime('%d/%m/%Y-%H:%M:%S')`. -/
structure Timestamp where
  day : Nat
  month : Nat
  year : Nat
  hour : Nat
  minute : Nat
  second : Nat
deriving Repr, DecidableEq

/-- Zero-padded two-digit rendering (`%d`, `%m`, `%H`, `%M`, `%S`). -/
def pad2 (n : Nat) : String :=
  if n < 10 then "0" ++ toString n else toString n

/-- `datetime.now().strftime('%d/%m/%Y-%H:%M:%S')`. -/
def heartbeatTimestamp (t : Timestamp) : String :=
  pad2 t.day ++ "/" ++ pad2 t.month ++ "/" ++ toString t.year ++ "-" ++
  pad2 t.hour ++ ":" ++ pad2 t.minute ++ ":" ++ pad2 t.second

/-- Every outcome of the liveness probe (`requests.post` of the `hello`
query): an HTTP response (its status code, and whether
`data['data']['hello']` is truthy), a timeout, a connection failure, or any
other exception (carrying `str(e)`). -/
inductive ProbeOutcome where
  | response (status : Nat) (helloPresent : Bool)
  | timeout
  | connectionFailed
  | otherError (msg : String)
deriving Repr, DecidableEq

/-- The `graphql_status` suffix computed by `log_crm_heartbeat` for each
probe outcome, branch for branch. -/
def graphqlStatus : ProbeOutcome → String
  | .response status hello =>
    if status = 200 then
      if hello then " (GraphQL: OK)" else " (GraphQL: No response)"
    else " (GraphQL: HTTP " ++ toString status ++ ")"
  | .timeout => " (GraphQL: Timeout)"
  | .connectionFailed => " (GraphQL: Connection failed)"
  | .otherError msg => " (GraphQL: " ++ msg.take 30 ++ ")"

/-- `log_crm_heartbeat` (`crm/cron.py`): one line
`<timestamp> CRM is alive<graphql_status>` appended to the heartbeat log
(modelled as the list of its lines), whatever the probe outcome. -/
def log_crm_heartbeat (t : Timestamp) (probe : ProbeOutcome) (log : List String) :
    List String :=
  log ++ [heartbeatTimestamp t ++ " CRM is alive" ++ graphqlStatus probe]

/-- Equality of `Except` results is decidable componentwise (used to settle
concrete mutation runs by evaluation). -/
instance instDecEqExcept {ε α : Type} [DecidableEq ε] [DecidableEq α] :
    DecidableEq (Except ε α)
  | .ok a, .ok b =>
    if h : a = b then .isTrue (by rw [h]) else
      .isFalse (by intro he; cases he; exact h rfl)
  | .error e, .error e2 =>
    if h : e = e2 then .isTrue (by rw [h]) else
      .isFalse (by intro he; cases he; exact h rfl)
  | .ok a, .error e => .isFalse (by intro he; cases he)
  | .error e, .ok a => .isFalse (by intro he; cases he)

/-! ### Concrete fixtures used by witnesses and counterexamples -/

/-- A customer on file. -/
def custAda : Customer :=
  { id := 1, name := "Ada", email := "ada@example.com", phone := none }

/-- Product A with stock 3 (low). -/
def prodA : Product := { id := 1, name := "A", price := 5, stock := 3 }

/-- Product B with stock 12 (not low). -/
def prodB : Product := { id := 2, name := "B", price := 7, stock := 12 }

/-- A store holding one customer and products A(stock=3), B(stock=12). -/
def demoStore : Store :=
  { customers := [custAda], products := [prodA, prodB], orders := []
    nextCustomerId := 2, nextProductId := 3, nextOrderId := 1 }

/-- The empty store. -/
def emptyStore : Store :=
  { customers := [], products := [], orders := []
    nextCustomerId := 1, nextProductId := 1, nextOrderId := 1 }

/-- The invalid-phone message of `CreateCustomer.mutate`. -/
def invalidPhoneMsg : String :=
  "Invalid phone format. Use formats like +1234567890 or 123-456-7890"

/-- The oracle under which only the transaction commit raises. -/
def commitFault : StoreFault := { noFault with commitFails := some "database commit failed" }

/-! ## Theorems -/

/-- C6: for every createCustomer call whose email is already present in the
store, the mutation returns success=false with the duplicate-email message
and leaves the store (in particular the customer count) unchanged. -/
theorem createCustomer_duplicate_email (s : Store) (input : CustomerInput) (f : StoreFault)
    (h : emailExists s input.email = true) :
    CreateCustomer.mutate s input f =
      .ok ({ customer := none, message := "Email already exists", success := false }, s) := by
  simp [CreateCustomer.mutate, CreateCustomer.body, h]

/-- Witness for C6: on `demoStore`, re-using Ada's email fails with the
duplicate-email message and returns the store unchanged. -/
theorem createCustomer_duplicate_email_witness :
    CreateCustomer.mutate demoStore
        { name := "Zed", email := "ada@example.com", phone := none } noFault =
      .ok ({ customer := none, message := "Email already exists", success := false }, demoStore) :=
  createCustomer_duplicate_email demoStore
    { name := "Zed", email := "ada@example.com", phone := none } noFault (by decide)

/-- C8 (code bug): `crm/schema.py` passes `input.order_date` to
`Order.objects.create`, but `crm/models.py` declares `order_date` with
`auto_now_add=True`, so the supplied value is discarded: supplying
orderDate = 5 at creation instant 100 persists order_date = 100, not 5. -/
theorem createOrder_ignores_supplied_order_date :
    CreateOrder.mutate demoStore
        { customer_id := 1, product_ids := [1], order_date := some 5 } 100 noFault =
      .ok ({ order := some
               { id := 1, customerId := 1, productIds := [1], total_amount := 5, order_date := 100 }
             message := "Order created successfully with total amount $5"
             success := true },
           { demoStore with
               orders := [{ id := 1, customerId := 1, productIds := [1], total_amount := 5,
                            order_date := 100 }]
               nextOrderId := 2 }) ∧
    (100 : Nat) ≠ 5 := by
  refine ⟨by decide, by decide⟩

/-- C9 counterexample: with an empty productIds list but an unresolved
customerId, createOrder fails with the CustomerNotFound message, not the
NoProducts one — the claim's "regardless of the other arguments" fails. -/
theorem createOrder_empty_products_counterexample :
    CreateOrder.mutate emptyStore
        { customer_id := 42, product_ids := [], order_date := none } 0 noFault =
      .ok ({ order := none, message := "Customer with ID 42 does not exist", success := false },
           emptyStore) ∧
    "Customer with ID 42 does not exist" ≠ "At least one product must be provided" := by
  refine ⟨by decide, by decide⟩

/-- C9 (amended): for every createOrder call with an empty productIds list
the call is a no-op on the store and fails; when its customerId resolves it
fails with the NoProducts message, and when it does not it fails with the
CustomerNotFound message. -/
theorem createOrder_empty_products (s : Store) (input : OrderInput) (now : Nat)
    (f : StoreFault) (he : input.product_ids = []) :
    (findCustomer s input.customer_id = none →
      CreateOrder.mutate s input now f =
        .ok ({ order := none
               message := "Customer with ID " ++ toString input.customer_id ++ " does not exist"
               success := false }, s)) ∧
    (∀ c, findCustomer s input.customer_id = some c →
      CreateOrder.mutate s input now f =
        .ok ({ order := none, message := "At least one product must be provided"
               success := false }, s)) := by
  constructor
  · intro hnone
    simp [CreateOrder.mutate, CreateOrder.body, hnone]
  · intro c hc
    simp [CreateOrder.mutate, CreateOrder.body, hc, he]

/-- Witness for C9: on `demoStore` (customer 1 on file), an empty product
list fails with the NoProducts message and leaves the store unchanged. -/
theorem createOrder_empty_products_witness :
    CreateOrder.mutate demoStore
        { customer_id := 1, product_ids := [], order_date := none } 0 noFault =
      .ok ({ order := none, message := "At least one product must be provided"
             success := false }, demoStore) :=
  (createOrder_empty_products demoStore
      { customer_id := 1, product_ids := [], order_date := none } 0 noFault rfl).2
    custAda (by decide)

/-- C2 counterexample: `BulkCreateCustomers.mutate` has no outer
`try/except`, so a store failure raised at the exit (commit) of its
`transaction.atomic` block escapes to the caller instead of being converted
into a success=false result. -/
theorem bulkCreateCustomers_commit_raise_escapes :
    BulkCreateCustomers.mutate emptyStore
        [{ name := "Ada", email := "ada@example.com", phone := none }] commitFault =
      .error (.storeError "database commit failed") := by
  decide

/-- C3 counterexample: when the customerId is also unresolved, createOrder
reports CustomerNotFound even though productIds contains an id (7) that
resolves to no product — so the call does not fail with a ProductNotFound
message naming that id. -/
theorem createOrder_customer_check_precedes_product_check :
    CreateOrder.mutate emptyStore
        { customer_id := 99, product_ids := [7], order_date := none } 0 noFault =
      .ok ({ order := none, message := "Customer with ID 99 does not exist", success := false },
           emptyStore) ∧
    "Customer with ID 99 does not exist" ≠ "Product with ID 7 does not exist" := by
  refine ⟨by decide, by decide⟩

/-- C7 counterexample: with a duplicate email and the non-matching phone
"abc", createCustomer is rejected with the duplicate-email message, not the
invalid-phone one — the claimed equivalence fails for calls whose email is
already taken. -/
theorem createCustomer_email_check_precedes_phone_check :
    CreateCustomer.mutate demoStore
        { name := "Zed", email := "ada@example.com", phone := some "abc" } noFault =
      .ok ({ customer := none, message := "Email already exists", success := false }, demoStore) ∧
    phoneMatches "abc" = false ∧
    "Email already exists" ≠ invalidPhoneMsg := by
  refine ⟨by decide, by decide, by decide⟩

/-- C10: for every probe outcome, a heartbeat invocation appends exactly one
line of the form `<timestamp> CRM is alive (GraphQL: <status>)` to the
heartbeat log — a failing probe only changes the status text. -/
theorem log_crm_heartbeat_always_one_line (t : Timestamp) (probe : ProbeOutcome)
    (log : List String) :
    ∃ core,
      log_crm_heartbeat t probe log =
        log ++ [heartbeatTimestamp t ++ " CRM is alive" ++ (" (GraphQL: " ++ core ++ ")")] ∧
      (log_crm_heartbeat t probe log).length = log.length + 1 := by
  have hlen : (log_crm_heartbeat t probe log).length = log.length + 1 := by
    simp [log_crm_heartbeat]
  suffices h : ∃ core, graphqlStatus probe = " (GraphQL: " ++ core ++ ")" by
    obtain ⟨core, hc⟩ := h
    exact ⟨core, by rw [log_crm_heartbeat, hc], hlen⟩
  cases probe with
  | response status hello =>
    by_cases hst : status = 200
    · cases hello
      · exact ⟨"No response", by simp [graphqlStatus, hst]⟩
      · exact ⟨"OK", by simp [graphqlStatus, hst]⟩
    · refine ⟨"HTTP " ++ toString status, ?_⟩
      simp only [graphqlStatus, if_neg hst]
      rw [← String.append_assoc]
      have hlit : (" (GraphQL: " : String) ++ "HTTP " = " (GraphQL: HTTP " := rfl
      rw [hlit]
  | timeout => exact ⟨"Timeout", rfl⟩
  | connectionFailed => exact ⟨"Connection failed", rfl⟩
  | otherError msg => exact ⟨msg.take 30, rfl⟩

/-- Every restocked product (a low-stock product with its stock bumped by
10) appears among the persisted product rows after the sweep. -/
theorem mem_bump_of_mem_filter_bump (l : List Product) (p : Product)
    (h : p ∈ (l.filter (fun q => q.stock < 10)).map (fun q => { q with stock := q.stock + 10 })) :
    p ∈ l.map (fun q => if q.stock < 10 then { q with stock := q.stock + 10 } else q) := by
  obtain ⟨a, ha, rfl⟩ := List.mem_map.mp h
  obtain ⟨hal, hcond⟩ := List.mem_filter.mp ha
  have hc : a.stock < 10 := by simpa using hcond
  exact List.mem_map.mpr ⟨a, hal, by simp [hc]⟩

/-- C1: with no hard store failure, updateLowStockProducts (modelled from
the spec, see its definition) reports success=true for every store state,
returns exactly the products whose stock is strictly below 10 with their
stock incremented by exactly 10 (the empty list when none matched),
persists each of those updates, and leaves every other product row as it
was. -/
theorem updateLowStockProducts_restocks (s : Store) (f : StoreFault)
    (h : f.lowStockUpdateFails = none) :
    (UpdateLowStockProducts.mutate s f).1.success = true ∧
    (UpdateLowStockProducts.mutate s f).1.products =
      (s.products.filter (fun p => p.stock < 10)).map
        (fun p => { p with stock := p.stock + 10 }) ∧
    (UpdateLowStockProducts.mutate s f).2.products =
      s.products.map (fun p => if p.stock < 10 then { p with stock := p.stock + 10 } else p) ∧
    (∀ p, p ∈ (UpdateLowStockProducts.mutate s f).1.products →
      p ∈ (UpdateLowStockProducts.mutate s f).2.products) ∧
    (s.products.filter (fun p => p.stock < 10) = [] →
      (UpdateLowStockProducts.mutate s f).1.products = []) := by
  refine ⟨?_, ?_, ?_, ?_, ?_⟩
  · simp [UpdateLowStockProducts.mutate, h]
  · simp [UpdateLowStockProducts.mutate, h]
  · simp [UpdateLowStockProducts.mutate, h]
  · intro p hp
    simp only [UpdateLowStockProducts.mutate, h] at hp ⊢
    exact mem_bump_of_mem_filter_bump s.products p hp
  · intro hempty
    simp [UpdateLowStockProducts.mutate, h, hempty]

/-- Witness for C1: on `demoStore` (A at stock 3, B at stock 12), the sweep
succeeds, restocks exactly A to 13, and persists A's update next to the
untouched B. -/
theorem updateLowStockProducts_restocks_witness :
    (UpdateLowStockProducts.mutate demoStore noFault).1.success = true ∧
    (UpdateLowStockProducts.mutate demoStore noFault).1.products =
      [{ id := 1, name := "A", price := 5, stock := 13 }] ∧
    (UpdateLowStockProducts.mutate demoStore noFault).2.products =
      [{ id := 1, name := "A", price := 5, stock := 13 }, prodB] := by
  have h := updateLowStockProducts_restocks demoStore noFault rfl
  exact ⟨h.1, h.2.1.trans (by decide), h.2.2.1.trans (by decide)⟩

/-- The id that `find?` reports as the first unresolved one is exactly the
id at which the product-resolution loop of createOrder fails. -/
theorem resolveProducts_first_unresolved (s : Store) (ids : List Nat) (pid : Nat)
    (h : ids.find? (fun q => (findProduct s q).isNone) = some pid) :
    resolveProducts s ids = .error pid := by
  induction ids with
  | nil => simp at h
  | cons q rest ih =>
    by_cases hq : (findProduct s q).isNone = true
    · rw [show List.find? (fun x => (findProduct s x).isNone) (q :: rest) = some q from
        List.find?_cons_of_pos rest hq] at h
      have hqp : q = pid := Option.some.inj h
      subst hqp
      have hnone : findProduct s q = none := Option.isNone_iff_eq_none.mp hq
      simp [resolveProducts, hnone]
    · rw [show List.find? (fun x => (findProduct s x).isNone) (q :: rest) =
          List.find? (fun x => (findProduct s x).isNone) rest from
        List.find?_cons_of_neg rest hq] at h
      cases hp : findProduct s q with
      | none => exact absurd (by simp [hp]) hq
      | some p => simp [resolveProducts, hp, ih h]

/-- C3 (amended): for every createOrder call whose customerId resolves and
whose productIds contains at least one id resolving to no product, the
mutation fails with the ProductNotFound message naming the first such id,
and the store is left entirely unchanged (zero order rows, zero
associations). -/
theorem createOrder_unresolved_product (s : Store) (input : OrderInput) (now : Nat)
    (f : StoreFault) (c : Customer)
    (hc : findCustomer s input.customer_id = some c) (pid : Nat)
    (hp : input.product_ids.find? (fun q => (findProduct s q).isNone) = some pid) :
    CreateOrder.mutate s input now f =
      .ok ({ order := none
             message := "Product with ID " ++ toString pid ++ " does not exist"
             success := false }, s) := by
  have hres := resolveProducts_first_unresolved s input.product_ids pid hp
  have hne : input.product_ids.isEmpty = false := by
    cases hi : input.product_ids with
    | nil => rw [hi] at hp; simp at hp
    | cons a l => simp [hi]
  simp [CreateOrder.mutate, CreateOrder.body, hc, hne, hres]

/-- Witness for C3: on `demoStore` (products 1 and 2 on file), ordering
products [1, 7] for customer 1 fails naming id 7 and leaves the store
unchanged. -/
theorem createOrder_unresolved_product_witness :
    CreateOrder.mutate demoStore
        { customer_id := 1, product_ids := [1, 7], order_date := none } 5 noFault =
      .ok ({ order := none, message := "Product with ID 7 does not exist", success := false },
           demoStore) := by
  have h := createOrder_unresolved_product demoStore
      { customer_id := 1, product_ids := [1, 7], order_date := none } 5 noFault custAda
      (by decide) 7 (by decide)
  rw [h]
  decide

/-- Complete case analysis of one createCustomer run: duplicate email,
invalid phone, caught store error, or successful creation. -/
theorem createCustomer_run_cases (s : Store) (input : CustomerInput) (f : StoreFault) :
    (emailExists s input.email = true ∧
      CreateCustomer.mutate s input f =
        .ok ({ customer := none, message := "Email already exists", success := false }, s)) ∨
    (emailExists s input.email = false ∧
      (phoneTruthy input.phone && !validate_phone (phoneVal input.phone)) = true ∧
      CreateCustomer.mutate s input f =
        .ok ({ customer := none, message := invalidPhoneMsg, success := false }, s)) ∨
    (∃ m, emailExists s input.email = false ∧
      (phoneTruthy input.phone && !validate_phone (phoneVal input.phone)) = false ∧
      f.createCustomerFails 0 = some m ∧
      CreateCustomer.mutate s input f =
        .ok ({ customer := none, message := "Error creating customer: " ++ m
               success := false }, s)) ∨
    (emailExists s input.email = false ∧
      (phoneTruthy input.phone && !validate_phone (phoneVal input.phone)) = false ∧
      f.createCustomerFails 0 = none ∧
      CreateCustomer.mutate s input f =
        .ok ({ customer := some
                 { id := s.nextCustomerId, name := input.name, email := input.email
                   phone := if phoneTruthy input.phone then input.phone else none }
               message := "Customer created successfully", success := true },
             { s with
                 customers := s.customers ++
                   [{ id := s.nextCustomerId, name := input.name, email := input.email
                      phone := if phoneTruthy input.phone then input.phone else none }]
                 nextCustomerId := s.nextCustomerId + 1 })) := by
  by_cases h1 : emailExists s input.email = true
  · exact Or.inl ⟨h1, by simp [CreateCustomer.mutate, CreateCustomer.body, h1]⟩
  · have h1f : emailExists s input.email = false := by simpa using h1
    by_cases h2 : (phoneTruthy input.phone && !validate_phone (phoneVal input.phone)) = true
    · exact Or.inr (Or.inl ⟨h1f, h2,
        by simp [CreateCustomer.mutate, CreateCustomer.body, h1f, h2, invalidPhoneMsg]⟩)
    · have h2f : (phoneTruthy input.phone && !validate_phone (phoneVal input.phone)) = false := by
        simpa using h2
      cases hf : f.createCustomerFails 0 with
      | some m =>
        exact Or.inr (Or.inr (Or.inl ⟨m, h1f, h2f, rfl,
          by simp [CreateCustomer.mutate, CreateCustomer.body, Exn.text, h1f, h2f, hf]⟩))
      | none =>
        exact Or.inr (Or.inr (Or.inr ⟨h1f, h2f, rfl,
          by simp [CreateCustomer.mutate, CreateCustomer.body, h1f, h2f, hf]⟩))

/-- Appending to a string cannot change its first character, so a string
whose head differs from another string's head never equals it, whatever is
appended. -/
theorem string_append_ne_of_head_ne (a m b : String) (c d : Char)
    (ha : a.data.head? = some c) (hb : b.data.head? = some d) (hcd : c ≠ d) :
    a ++ m ≠ b := by
  intro he
  have hd := congrArg String.data he
  rw [String.data_append] at hd
  have h1 : (a.data ++ m.data).head? = some c := by
    cases hc2 : a.data with
    | nil => rw [hc2] at ha; simp at ha
    | cons x xs =>
      rw [hc2] at ha
      simp at ha
      simp [ha]
  rw [hd, hb] at h1
  exact hcd (Option.some.inj h1).symm

/-- A string beginning with a character stays non-empty whatever is
appended to it. -/
theorem string_append_ne_empty (a m : String) (c : Char) (ha : a.data.head? = some c) :
    a ++ m ≠ "" := by
  intro he
  have hd := congrArg String.data he
  rw [String.data_append] at hd
  cases hc2 : a.data with
  | nil => rw [hc2] at ha; simp at ha
  | cons x xs =>
    rw [hc2, show String.data "" = [] from rfl] at hd
    simp at hd

/-- Complete case analysis of one createProduct run: invalid price, invalid
stock, caught store error, or successful creation. -/
theorem createProduct_run_cases (s : Store) (input : ProductInput) (f : StoreFault) :
    (input.price ≤ 0 ∧
      CreateProduct.mutate s input f =
        .ok ({ product := none, message := "Price must be positive", success := false }, s)) ∨
    (¬input.price ≤ 0 ∧ input.stock < 0 ∧
      CreateProduct.mutate s input f =
        .ok ({ product := none, message := "Stock cannot be negative", success := false }, s)) ∨
    (∃ m, ¬input.price ≤ 0 ∧ ¬input.stock < 0 ∧ f.createProductFails = some m ∧
      CreateProduct.mutate s input f =
        .ok ({ product := none, message := "Error creating product: " ++ m
               success := false }, s)) ∨
    (¬input.price ≤ 0 ∧ ¬input.stock < 0 ∧ f.createProductFails = none ∧
      CreateProduct.mutate s input f =
        .ok ({ product := some { id := s.nextProductId, name := input.name
                                 price := input.price, stock := input.stock }
               message := "Product created successfully", success := true },
             { s with
                 products := s.products ++
                   [{ id := s.nextProductId, name := input.name
                      price := input.price, stock := input.stock }]
                 nextProductId := s.nextProductId + 1 })) := by
  by_cases h1 : input.price ≤ 0
  · exact Or.inl ⟨h1, by simp [CreateProduct.mutate, CreateProduct.body, h1]⟩
  · by_cases h2 : input.stock < 0
    · exact Or.inr (Or.inl ⟨h1, h2,
        by simp [CreateProduct.mutate, CreateProduct.body, h1, h2]⟩)
    · cases hf : f.createProductFails with
      | some m =>
        exact Or.inr (Or.inr (Or.inl ⟨m, h1, h2, rfl,
          by simp [CreateProduct.mutate, CreateProduct.body, Exn.text, h1, h2, hf]⟩))
      | none =>
        exact Or.inr (Or.inr (Or.inr ⟨h1, h2, rfl,
          by simp [CreateProduct.mutate, CreateProduct.body, h1, h2, hf]⟩))

/-- Complete case analysis of one createOrder run: unresolved customer,
empty product list, unresolved product id, caught store error (raised by
the order writes or by the commit of its atomic block), or no store fault
at all. -/
theorem createOrder_run_cases (s : Store) (input : OrderInput) (now : Nat) (f : StoreFault) :
    (findCustomer s input.customer_id = none ∧
      CreateOrder.mutate s input now f =
        .ok ({ order := none
               message := "Customer with ID " ++ toString input.customer_id ++ " does not exist"
               success := false }, s)) ∨
    (input.product_ids.isEmpty = true ∧
      CreateOrder.mutate s input now f =
        .ok ({ order := none, message := "At least one product must be provided"
               success := false }, s)) ∨
    (∃ pid, resolveProducts s input.product_ids = .error pid ∧
      CreateOrder.mutate s input now f =
        .ok ({ order := none
               message := "Product with ID " ++ toString pid ++ " does not exist"
               success := false }, s)) ∨
    (∃ m, (f.orderWriteFails = some m ∨ f.commitFails = some m) ∧
      CreateOrder.mutate s input now f =
        .ok ({ order := none, message := "Error creating order: " ++ m
               success := false }, s)) ∨
    (f.orderWriteFails = none ∧ f.commitFails = none) := by
  cases hcust : findCustomer s input.customer_id with
  | none => exact Or.inl ⟨rfl, by simp [CreateOrder.mutate, CreateOrder.body, hcust]⟩
  | some c =>
    by_cases hemp : input.product_ids.isEmpty = true
    · exact Or.inr (Or.inl ⟨hemp,
        by simp [CreateOrder.mutate, CreateOrder.body, hcust, hemp]⟩)
    · have hempf : input.product_ids.isEmpty = false := by simpa using hemp
      cases hres : resolveProducts s input.product_ids with
      | error pid =>
        exact Or.inr (Or.inr (Or.inl ⟨pid, rfl,
          by simp [CreateOrder.mutate, CreateOrder.body, hcust, hempf, hres]⟩))
      | ok ps =>
        cases hw : f.orderWriteFails with
        | some m =>
          exact Or.inr (Or.inr (Or.inr (Or.inl ⟨m, Or.inl rfl,
            by simp [CreateOrder.mutate, CreateOrder.body, Exn.text,
              hcust, hempf, hres, hw]⟩)))
        | none =>
          cases hcf : f.commitFails with
          | some m =>
            exact Or.inr (Or.inr (Or.inr (Or.inl ⟨m, Or.inr rfl,
              by simp [CreateOrder.mutate, CreateOrder.body, Exn.text,
                hcust, hempf, hres, hw, hcf]⟩)))
          | none => exact Or.inr (Or.inr (Or.inr (Or.inr ⟨rfl, rfl⟩)))

/-- C2 (amended): createCustomer, createProduct and createOrder always
return a structured result, for every store-fault oracle — every failure
path, including raised store errors (for createOrder: from its order
writes and from the commit of its own atomic block alike), is caught at
their outer try/except and converted into a success=false result with a
non-empty message — while bulkCreateCustomers returns a structured result
exactly when its transaction commit does not raise (its per-entry failures
are caught inside the loop; a commit raise escapes, see the
counterexample). -/
theorem mutations_return_structured_results (s : Store) (ci : CustomerInput)
    (pin : ProductInput) (oi : OrderInput) (binput : List CustomerInput)
    (now : Nat) (f : StoreFault) :
    (CreateCustomer.mutate s ci f).isOk = true ∧
    (CreateProduct.mutate s pin f).isOk = true ∧
    (CreateOrder.mutate s oi now f).isOk = true ∧
    (f.commitFails = none → (BulkCreateCustomers.mutate s binput f).isOk = true) ∧
    (∀ m r s1, f.createCustomerFails 0 = some m →
      CreateCustomer.mutate s ci f = .ok (r, s1) → r.success = false ∧ r.message ≠ "") ∧
    (∀ m r s1, f.createProductFails = some m →
      CreateProduct.mutate s pin f = .ok (r, s1) → r.success = false ∧ r.message ≠ "") ∧
    (∀ r s1, f.orderWriteFails.isSome = true ∨ f.commitFails.isSome = true →
      CreateOrder.mutate s oi now f = .ok (r, s1) → r.success = false ∧ r.message ≠ "") := by
  refine ⟨?_, ?_, ?_, ?_, ?_, ?_, ?_⟩
  · cases hb : CreateCustomer.body s ci f with
    | ok r => simp [CreateCustomer.mutate, hb, Except.isOk, Except.toBool]
    | error e => simp [CreateCustomer.mutate, hb, Except.isOk, Except.toBool]
  · cases hb : CreateProduct.body s pin f with
    | ok r => simp [CreateProduct.mutate, hb, Except.isOk, Except.toBool]
    | error e => simp [CreateProduct.mutate, hb, Except.isOk, Except.toBool]
  · cases hb : CreateOrder.body s oi now f with
    | ok r => simp [CreateOrder.mutate, hb, Except.isOk, Except.toBool]
    | error e => simp [CreateOrder.mutate, hb, Except.isOk, Except.toBool]
  · intro hc
    simp [BulkCreateCustomers.mutate, hc, Except.isOk, Except.toBool]
  · intro m r s1 hm hmut
    rcases createCustomer_run_cases s ci f with
      ⟨-, hrun⟩ | ⟨-, -, hrun⟩ | ⟨m2, -, -, -, hrun⟩ | ⟨-, -, hf, -⟩
    · have hcomb := hrun.symm.trans hmut
      injection hcomb with hpair
      injection hpair with hr hs1
      rw [← hr]
      exact ⟨rfl, by decide⟩
    · have hcomb := hrun.symm.trans hmut
      injection hcomb with hpair
      injection hpair with hr hs1
      rw [← hr]
      exact ⟨rfl, by decide⟩
    · have hcomb := hrun.symm.trans hmut
      injection hcomb with hpair
      injection hpair with hr hs1
      rw [← hr]
      exact ⟨rfl, string_append_ne_empty "Error creating customer: " m2 'E' (by decide)⟩
    · rw [hf] at hm
      simp at hm
  · intro m r s1 hm hmut
    rcases createProduct_run_cases s pin f with
      ⟨-, hrun⟩ | ⟨-, -, hrun⟩ | ⟨m2, -, -, -, hrun⟩ | ⟨-, -, hf, -⟩
    · have hcomb := hrun.symm.trans hmut
      injection hcomb with hpair
      injection hpair with hr hs1
      rw [← hr]
      exact ⟨rfl, by decide⟩
    · have hcomb := hrun.symm.trans hmut
      injection hcomb with hpair
      injection hpair with hr hs1
      rw [← hr]
      exact ⟨rfl, by decide⟩
    · have hcomb := hrun.symm.trans hmut
      injection hcomb with hpair
      injection hpair with hr hs1
      rw [← hr]
      exact ⟨rfl, string_append_ne_empty "Error creating product: " m2 'E' (by decide)⟩
    · rw [hf] at hm
      simp at hm
  · intro r s1 hfault hmut
    rcases createOrder_run_cases s oi now f with
      ⟨-, hrun⟩ | ⟨-, hrun⟩ | ⟨pid, -, hrun⟩ | ⟨m, -, hrun⟩ | ⟨hw, hcf⟩
    · have hcomb := hrun.symm.trans hmut
      injection hcomb with hpair
      injection hpair with hr hs1
      rw [← hr]
      refine ⟨rfl, ?_⟩
      show ("Customer with ID " ++ toString oi.customer_id ++ " does not exist" : String) ≠ ""
      rw [String.append_assoc]
      exact string_append_ne_empty "Customer with ID " _ 'C' (by decide)
    · have hcomb := hrun.symm.trans hmut
      injection hcomb with hpair
      injection hpair with hr hs1
      rw [← hr]
      exact ⟨rfl, by decide⟩
    · have hcomb := hrun.symm.trans hmut
      injection hcomb with hpair
      injection hpair with hr hs1
      rw [← hr]
      refine ⟨rfl, ?_⟩
      show ("Product with ID " ++ toString pid ++ " does not exist" : String) ≠ ""
      rw [String.append_assoc]
      exact string_append_ne_empty "Product with ID " _ 'P' (by decide)
    · have hcomb := hrun.symm.trans hmut
      injection hcomb with hpair
      injection hpair with hr hs1
      rw [← hr]
      exact ⟨rfl, string_append_ne_empty "Error creating order: " m 'E' (by decide)⟩
    · rcases hfault with hso | hso
      · rw [hw] at hso
        simp at hso
      · rw [hcf] at hso
        simp at hso

/-- Witness for C2: with no injected faults all four mutations return
structured results, and under a commit fault createOrder still returns a
structured success=false result with a non-empty message. -/
theorem mutations_return_structured_results_witness :
    (CreateCustomer.mutate emptyStore
      { name := "Ada", email := "ada@example.com", phone := none } noFault).isOk = true ∧
    (CreateProduct.mutate emptyStore
      { name := "P", price := 1, stock := 0 } noFault).isOk = true ∧
    (CreateOrder.mutate emptyStore
      { customer_id := 1, product_ids := [1], order_date := none } 0 noFault).isOk = true ∧
    (BulkCreateCustomers.mutate emptyStore [] noFault).isOk = true ∧
    (CreateOrder.mutate demoStore
      { customer_id := 1, product_ids := [1], order_date := none } 0 commitFault).isOk = true ∧
    (({ order := none, message := "Error creating order: database commit failed"
        success := false } : CreateOrderResult).success = false ∧
      ({ order := none, message := "Error creating order: database commit failed"
         success := false } : CreateOrderResult).message ≠ "") := by
  have h := mutations_return_structured_results emptyStore
    { name := "Ada", email := "ada@example.com", phone := none }
    { name := "P", price := 1, stock := 0 }
    { customer_id := 1, product_ids := [1], order_date := none } [] 0 noFault
  have h2 := mutations_return_structured_results demoStore
    { name := "Ada", email := "ada@example.com", phone := none }
    { name := "P", price := 1, stock := 0 }
    { customer_id := 1, product_ids := [1], order_date := none } [] 0 commitFault
  exact ⟨h.1, h.2.1, h.2.2.1, h.2.2.2.1 rfl, h2.2.2.1,
    h2.2.2.2.2.2.2 _ demoStore (Or.inr rfl) (by decide)⟩

/-- C7 (amended): for every createCustomer call with a non-empty phone
string whose email is not already on file, the call is rejected with the
invalid-phone message exactly when the phone does not match the accepted
pattern; in particular "+1-234-567-8900" matches it and "abc" does not. -/
theorem createCustomer_phone_validation (s : Store) (input : CustomerInput) (f : StoreFault)
    (p : String) (hp : input.phone = some p) (hne : p.isEmpty = false)
    (hemail : emailExists s input.email = false) :
    (phoneMatches p = false →
      CreateCustomer.mutate s input f =
        .ok ({ customer := none, message := invalidPhoneMsg, success := false }, s)) ∧
    (phoneMatches p = true →
      ∀ r s1, CreateCustomer.mutate s input f = .ok (r, s1) → r.message ≠ invalidPhoneMsg) ∧
    phoneMatches "+1-234-567-8900" = true ∧
    phoneMatches "abc" = false := by
  have htr : phoneTruthy input.phone = true := by rw [hp]; simp [phoneTruthy, hne]
  refine ⟨?_, ?_, by decide, by decide⟩
  · intro hm
    have hval : validate_phone (phoneVal input.phone) = false := by
      rw [hp]; simp [phoneVal, validate_phone, hne, hm]
    have h2 : (phoneTruthy input.phone && !validate_phone (phoneVal input.phone)) = true := by
      rw [htr, hval]; rfl
    rcases createCustomer_run_cases s input f with
      ⟨he, -⟩ | ⟨-, -, hrun⟩ | ⟨m2, -, h2f, -, -⟩ | ⟨-, h2f, -, -⟩
    · rw [hemail] at he; cases he
    · exact hrun
    · rw [h2] at h2f; cases h2f
    · rw [h2] at h2f; cases h2f
  · intro hm r s1 hmut
    have hval : validate_phone (phoneVal input.phone) = true := by
      rw [hp]; simp [phoneVal, validate_phone, hne, hm]
    have h2 : (phoneTruthy input.phone && !validate_phone (phoneVal input.phone)) = false := by
      rw [htr, hval]; rfl
    rcases createCustomer_run_cases s input f with
      ⟨he, -⟩ | ⟨-, h2t, -⟩ | ⟨m2, -, -, -, hrun⟩ | ⟨-, -, -, hrun⟩
    · rw [hemail] at he; cases he
    · rw [h2] at h2t; cases h2t
    · have hcomb := hrun.symm.trans hmut
      injection hcomb with hpair
      injection hpair with hr hs1
      rw [← hr]
      exact string_append_ne_of_head_ne "Error creating customer: " m2 invalidPhoneMsg
        'E' 'I' rfl rfl (by decide)
    · have hcomb := hrun.symm.trans hmut
      injection hcomb with hpair
      injection hpair with hr hs1
      rw [← hr]
      exact (by decide : ("Customer created successfully" : String) ≠ invalidPhoneMsg)

/-- Witness for C7: on the empty store, a customer with the non-matching
phone "abc" is rejected with the invalid-phone message and the store is
unchanged. -/
theorem createCustomer_phone_validation_witness :
    CreateCustomer.mutate emptyStore
        { name := "Bob", email := "bob@example.com", phone := some "abc" } noFault =
      .ok ({ customer := none, message := invalidPhoneMsg, success := false }, emptyStore) :=
  (createCustomer_phone_validation emptyStore
      { name := "Bob", email := "bob@example.com", phone := some "abc" } noFault
      "abc" rfl rfl (by decide)).1 (by decide)

/-- C4: for every successful createOrder call, the created order is
persisted with total_amount equal to the sum of the prices — read from the
store at call time — of the distinct products resolved from the input ids;
its association list is exactly those products' ids; and a subsequent price
update touches no order row, so the persisted total does not change. -/
theorem createOrder_total_is_creation_time_sum (s : Store) (input : OrderInput)
    (now : Nat) (f : StoreFault) (ps : List Product) (r : CreateOrderResult)
    (s1 : Store) (o : Order)
    (h : CreateOrder.mutate s input now f = .ok (r, s1))
    (hs : r.success = true)
    (hres : resolveProducts s input.product_ids = .ok ps)
    (ho : r.order = some o) :
    o.total_amount = ((dedupById ps).map (fun p => p.price)).sum ∧
    o.productIds = (dedupById ps).map (fun p => p.id) ∧
    o ∈ s1.orders ∧
    (∀ pid np, (updateProductPrice s1 pid np).orders = s1.orders) := by
  unfold CreateOrder.mutate at h
  cases hb : CreateOrder.body s input now f with
  | error e =>
    rw [hb] at h
    injection h with hpair
    injection hpair with hr hs1
    rw [← hr] at hs
    simp at hs
  | ok rs =>
    rw [hb] at h
    injection h with hrs
    subst hrs
    unfold CreateOrder.body at hb
    cases hcust : findCustomer s input.customer_id with
    | none =>
      simp only [hcust] at hb
      injection hb with hpair
      injection hpair with hr hs1
      rw [← hr] at hs
      simp at hs
    | some c =>
      simp only [hcust] at hb
      by_cases hemp : input.product_ids.isEmpty = true
      · simp only [hemp, if_true] at hb
        injection hb with hpair
        injection hpair with hr hs1
        rw [← hr] at hs
        simp at hs
      · have hempf : input.product_ids.isEmpty = false := by simpa using hemp
        simp only [hempf, Bool.false_eq_true, if_false, hres] at hb
        cases hw : f.orderWriteFails with
        | some m =>
          simp only [hw] at hb
          exact Except.noConfusion hb
        | none =>
          simp only [hw] at hb
          cases hcf : f.commitFails with
          | some m =>
            simp only [hcf] at hb
            exact Except.noConfusion hb
          | none =>
            simp only [hcf] at hb
            injection hb with hpair
            injection hpair with hr hs1
            rw [← hr] at ho
            simp only [Option.some.injEq] at ho
            subst ho
            refine ⟨rfl, rfl, ?_, ?_⟩
            · rw [← hs1]
              simp
            · intro pid np
              rw [← hs1]
              simp [updateProductPrice]

/-- Witness for C4: on `demoStore`, ordering products [1, 2] for customer 1
persists total 5 + 7 = 12 and the association [1, 2], and a price update on
product 1 afterwards leaves the order rows untouched. -/
theorem createOrder_total_is_creation_time_sum_witness :
    (⟨1, 1, [1, 2], 12, 100⟩ : Order).total_amount =
      ((dedupById [prodA, prodB]).map (fun p => p.price)).sum ∧
    (⟨1, 1, [1, 2], 12, 100⟩ : Order).productIds =
      (dedupById [prodA, prodB]).map (fun p => p.id) ∧
    (⟨1, 1, [1, 2], 12, 100⟩ : Order) ∈
      ({ demoStore with orders := [⟨1, 1, [1, 2], 12, 100⟩], nextOrderId := 2 } : Store).orders ∧
    (updateProductPrice
        { demoStore with orders := [⟨1, 1, [1, 2], 12, 100⟩], nextOrderId := 2 } 1 999).orders =
      ({ demoStore with orders := [⟨1, 1, [1, 2], 12, 100⟩], nextOrderId := 2 } : Store).orders := by
  have h := createOrder_total_is_creation_time_sum demoStore
      { customer_id := 1, product_ids := [1, 2], order_date := none } 100 noFault
      [prodA, prodB]
      { order := some ⟨1, 1, [1, 2], 12, 100⟩
        message := "Order created successfully with total amount $12"
        success := true }
      { demoStore with orders := [⟨1, 1, [1, 2], 12, 100⟩], nextOrderId := 2 }
      ⟨1, 1, [1, 2], 12, 100⟩
      (by decide) rfl (by decide) rfl
  exact ⟨h.1, h.2.1, h.2.2.1, h.2.2.2 1 999⟩

/-- The bulk-creation loop assigns every input entry to exactly one of the
created list and the error list. -/
theorem bulk_loop_counts (f : StoreFault) (input : List CustomerInput) :
    ∀ (idx : Nat) (s : Store) (created : List Customer) (errs : List String),
      (BulkCreateCustomers.loop f input idx s created errs).2.1.length +
        (BulkCreateCustomers.loop f input idx s created errs).2.2.length =
      created.length + errs.length + input.length := by
  induction input with
  | nil => intro idx s created errs; simp [BulkCreateCustomers.loop]
  | cons d rest ih =>
    intro idx s created errs
    unfold BulkCreateCustomers.loop
    split
    · rw [ih]
      simp
      omega
    · split
      · rw [ih]
        simp
        omega
      · split
        · rw [ih]
          simp
          omega
        · rw [ih]
          simp
          omega

/-- Every customer the bulk loop creates carries the name and email of some
input entry. -/
theorem bulk_loop_created_from_input (f : StoreFault) (input : List CustomerInput) :
    ∀ (idx : Nat) (s : Store) (created : List Customer) (errs : List String) (c : Customer),
      c ∈ (BulkCreateCustomers.loop f input idx s created errs).2.1 →
      c ∈ created ∨ ∃ d, d ∈ input ∧ c.name = d.name ∧ c.email = d.email := by
  induction input with
  | nil =>
    intro idx s created errs c hc
    simp only [BulkCreateCustomers.loop] at hc
    exact Or.inl hc
  | cons d rest ih =>
    intro idx s created errs c hc
    unfold BulkCreateCustomers.loop at hc
    split at hc
    · rcases ih _ _ _ _ _ hc with h | ⟨d2, hd2, h1, h2⟩
      · exact Or.inl h
      · exact Or.inr ⟨d2, List.mem_cons.mpr (Or.inr hd2), h1, h2⟩
    · split at hc
      · rcases ih _ _ _ _ _ hc with h | ⟨d2, hd2, h1, h2⟩
        · exact Or.inl h
        · exact Or.inr ⟨d2, List.mem_cons.mpr (Or.inr hd2), h1, h2⟩
      · split at hc
        · rcases ih _ _ _ _ _ hc with h | ⟨d2, hd2, h1, h2⟩
          · exact Or.inl h
          · exact Or.inr ⟨d2, List.mem_cons.mpr (Or.inr hd2), h1, h2⟩
        · rcases ih _ _ _ _ _ hc with h | ⟨d2, hd2, h1, h2⟩
          · rcases List.mem_append.mp h with h1 | h1
            · exact Or.inl h1
            · have hcn : c = { id := s.nextCustomerId, name := d.name, email := d.email
                               phone := if phoneTruthy d.phone then d.phone else none } := by
                simpa using h1
              exact Or.inr ⟨d, List.mem_cons_self d rest, by rw [hcn], by rw [hcn]⟩
          · exact Or.inr ⟨d2, List.mem_cons.mpr (Or.inr hd2), h1, h2⟩

/-- C5: bulkCreateCustomers (when its commit does not raise) returns a
structured result in which every input entry lands either in the created
list or as exactly one error entry, success holds exactly when at least one
customer was created, every created customer stems from an input entry —
and on the concrete batch [valid, duplicate-email, valid] it creates
exactly 2 customers, returns exactly 1 error entry, and reports
success=true. -/
theorem bulkCreateCustomers_independent_entries (s : Store) (input : List CustomerInput)
    (f : StoreFault) (hc : f.commitFails = none) :
    (∃ r s1, BulkCreateCustomers.mutate s input f = .ok (r, s1) ∧
      r.customers.length + (match r.errors with | none => 0 | some es => es.length) =
        input.length ∧
      (r.success = true ↔ r.customers ≠ []) ∧
      (∀ c, c ∈ r.customers → ∃ d, d ∈ input ∧ c.name = d.name ∧ c.email = d.email)) ∧
    BulkCreateCustomers.mutate emptyStore
        [{ name := "Carol", email := "carol@example.com", phone := none },
         { name := "Dave", email := "carol@example.com", phone := none },
         { name := "Eve", email := "eve@example.com", phone := none }] noFault =
      .ok ({ customers := [{ id := 1, name := "Carol", email := "carol@example.com", phone := none },
                           { id := 2, name := "Eve", email := "eve@example.com", phone := none }]
             errors := some ["Customer 2: Email 'carol@example.com' already exists"]
             success := true },
           { customers := [{ id := 1, name := "Carol", email := "carol@example.com", phone := none },
                           { id := 2, name := "Eve", email := "eve@example.com", phone := none }]
             products := [], orders := []
             nextCustomerId := 3, nextProductId := 1, nextOrderId := 1 }) := by
  constructor
  · have hrun : BulkCreateCustomers.mutate s input f =
        .ok ({ customers := (BulkCreateCustomers.loop f input 0 s [] []).2.1
               errors := if (BulkCreateCustomers.loop f input 0 s [] []).2.2.isEmpty then none
                         else some (BulkCreateCustomers.loop f input 0 s [] []).2.2
               success := decide ((BulkCreateCustomers.loop f input 0 s [] []).2.1.length > 0) },
             (BulkCreateCustomers.loop f input 0 s [] []).1) := by
      simp [BulkCreateCustomers.mutate, hc]
    refine ⟨_, _, hrun, ?_, ?_, ?_⟩
    · have hcnt := bulk_loop_counts f input 0 s [] []
      simp only [List.length_nil, Nat.zero_add] at hcnt
      by_cases hemp : (BulkCreateCustomers.loop f input 0 s [] []).2.2.isEmpty = true
      · have hz : (BulkCreateCustomers.loop f input 0 s [] []).2.2.length = 0 := by
          rw [List.isEmpty_iff_length_eq_zero.mp hemp]
        simp only [hemp, if_true]
        omega
      · have hempf : (BulkCreateCustomers.loop f input 0 s [] []).2.2.isEmpty = false := by
          simpa using hemp
        simp only [hempf, Bool.false_eq_true, if_false]
        omega
    · simp [List.length_pos]
    · intro c hcm
      simp only at hcm
      rcases bulk_loop_created_from_input f input 0 s [] [] c hcm with h | h
      · simp at h
      · exact h
  · decide

/-- Witness for C5: the concrete [valid, duplicate-email, valid] batch run,
obtained from the theorem with the commit hypothesis discharged. -/
theorem bulkCreateCustomers_independent_entries_witness :
    BulkCreateCustomers.mutate emptyStore
        [{ name := "Carol", email := "carol@example.com", phone := none },
         { name := "Dave", email := "carol@example.com", phone := none },
         { name := "Eve", email := "eve@example.com", phone := none }] noFault =
      .ok ({ customers := [{ id := 1, name := "Carol", email := "carol@example.com", phone := none },
                           { id := 2, name := "Eve", email := "eve@example.com", phone := none }]
             errors := some ["Customer 2: Email 'carol@example.com' already exists"]
             success := true },
           { customers := [{ id := 1, name := "Carol", email := "carol@example.com", phone := none },
                           { id := 2, name := "Eve", email := "eve@example.com", phone := none }]
             products := [], orders := []
             nextCustomerId := 3, nextProductId := 1, nextOrderId := 1 }) :=
  (bulkCreateCustomers_independent_entries emptyStore [] noFault rfl).2

end CRM
